import Mathlib

/-!
Shallow embedding of a socket-client SDK (SocketKit): two façades
(RoomsController, ClientController) that validate arguments, shape a payload
and forward exactly one `send` to an external transport, plus the SocketKit
lifecycle wrapper and the Rooms event router.  Each definition is translated
directly from the JavaScript source.
-/

/-- A JavaScript value, as far as this SDK manipulates them: `undefined`,
`null`, booleans, numbers, strings and (ordered) plain objects. -/
inductive JsValue where
  | undefined : JsValue
  | null : JsValue
  | bool (b : Bool) : JsValue
  | num (n : Int) : JsValue
  | str (s : String) : JsValue
  | obj (fields : List (String × JsValue)) : JsValue

/-- JavaScript truthiness: `undefined`, `null`, `false`, `0` and `""` are
falsy; every object (even `\x7b\x7d`) is truthy. -/
def truthy : JsValue → Bool
  | .undefined => false
  | .null => false
  | .bool b => b
  | .num n => n != 0
  | .str s => s != ""
  | .obj _ => true

/-- First-match field lookup in an object literal, `undefined` when absent. -/
def lookupField : List (String × JsValue) → String → JsValue
  | [], _ => .undefined
  | (k, v) :: rest, key => if k == key then v else lookupField rest key

/-- Whether an object literal carries a field of the given name. -/
def hasField : List (String × JsValue) → String → Bool
  | [], _ => false
  | (k, _) :: rest, key => k == key || hasField rest key

/-- Property access `v.key`: object lookup, `undefined` on non-objects
(the nullish cases are guarded by destructuring before any access). -/
def getProp : JsValue → String → JsValue
  | .obj fs, key => lookupField fs key
  | _, _ => .undefined

/-- A destructuring/parameter default: applies exactly when the value is
`undefined` (JavaScript defaults do not fire on `null`). -/
def withDefault (v d : JsValue) : JsValue :=
  match v with
  | .undefined => d
  | x => x

/-- Error message of the synchronous TypeError raised when an options object
that the parameter list destructures is nullish. -/
def destructureMsg : String := "TypeError: Cannot destructure nullish options object"

/-- Destructuring an options parameter: `hasDefault` is true when the
parameter is written `\x7b...\x7d = \x7b\x7d` in the source.  A nullish value
(after the default, if any) throws a TypeError before the function body runs. -/
def destr (hasDefault : Bool) (v : JsValue) : Except String JsValue :=
  match (if hasDefault then withDefault v (.obj []) else v) with
  | .undefined => .error destructureMsg
  | .null => .error destructureMsg
  | x => .ok x

/-- Observable outcome of one façade method call: a synchronous throw, a
rejected promise carrying a message, the single `Transport.send` (event name
and payload) whose future is returned, or a plain (non-promise) return. -/
inductive Outcome where
  | thrown (msg : String) : Outcome
  | rejected (msg : String) : Outcome
  | sent (event : String) (payload : JsValue) : Outcome
  | ret (v : JsValue) : Outcome

/-- The `Transport.send` calls a call makes: one for `sent`, none otherwise. -/
def sendsOf : Outcome → List (String × JsValue)
  | .sent e p => [(e, p)]
  | _ => []

/-- Whether the call returned a rejected promise. -/
def isRejected : Outcome → Bool
  | .rejected _ => true
  | _ => false

/-- Whether the call threw synchronously. -/
def isThrown : Outcome → Bool
  | .thrown _ => true
  | _ => false

/-- Eventual value handed to the caller, once a transport `send` function is
fixed: the future produced by `send`, passed back unmodified. -/
inductive CallResult (F : Type) where
  | future (f : F) : CallResult F
  | rejection (msg : String) : CallResult F
  | exception (msg : String) : CallResult F
  | plain (v : JsValue) : CallResult F

/-- Interpret an outcome against a concrete transport `send` function. -/
def runCall {F : Type} (send : String → JsValue → F) : Outcome → CallResult F
  | .sent e p => .future (send e p)
  | .rejected m => .rejection m
  | .thrown m => .exception m
  | .ret v => .plain v

namespace RoomsController

def InternalEvents.ROOM_EVENT : String := "room_event"

def InternalEvents.NEW_ROOM_CREATED : String := "new_room_created"

def InternalEvents.JOINED_TO_ROOM : String := "joined_to_room"

def InternalEvents.ROOM_UPDATED : String := "room_updated"

def InternalEvents.GET_CLIENT_ROOMS : String := "get_client_rooms"

def InternalEvents.GET_MESSAGES : String := "get_messages"

def InternalEvents.SEND_MESSAGE_TO_ROOM : String := "send_message_to_room"

def InternalEvents.CREATE_ROOM : String := "create_room"

def InternalEvents.ADD_PARTICIPANT : String := "add_participant"

def InternalEvents.UPDATE_PARTICIPANT : String := "update_participant"

def InternalEvents.UPDATE_ROOM : String := "update_room"

/-- The eleven internal (wire-facing) Room event identifiers. -/
def internalEventNames : List String :=
  [InternalEvents.ROOM_EVENT, InternalEvents.NEW_ROOM_CREATED,
   InternalEvents.JOINED_TO_ROOM, InternalEvents.ROOM_UPDATED,
   InternalEvents.GET_CLIENT_ROOMS, InternalEvents.GET_MESSAGES,
   InternalEvents.SEND_MESSAGE_TO_ROOM, InternalEvents.CREATE_ROOM,
   InternalEvents.ADD_PARTICIPANT, InternalEvents.UPDATE_PARTICIPANT,
   InternalEvents.UPDATE_ROOM]

def Events.NEW_ROOM_CREATED : String := "new_room_created"

def Events.JOINED_TO_ROOM : String := "joined_to_room"

def Events.ROOM_UPDATED : String := "room_updated"

def Events.MESSAGE_RECEIVED : String := "message_received"

def Events.CLIENT_UPDATED : String := "client_updated"

def Events.ROOM_EVENT : String := "room_event"

def Events.GET_ROOM_INFO : String := "get_room_info"

def Events.SET_TYPING : String := "set_typing"

/-- `create(\x7btitle, isPrivate = false, allowPostsByDefault = true,
properties = \x7b\x7d\x7d = \x7b\x7d)`. -/
def create (payload : JsValue) : Outcome :=
  match destr true payload with
  | .error m => .thrown m
  | .ok p =>
    let title := getProp p "title"
    let isPrivate := withDefault (getProp p "isPrivate") (.bool false)
    let allowPostsByDefault := withDefault (getProp p "allowPostsByDefault") (.bool true)
    let properties := withDefault (getProp p "properties") (.obj [])
    if !truthy title then .rejected "title is required"
    else .sent InternalEvents.CREATE_ROOM (.obj
      [("title", title), ("private", isPrivate),
       ("allowPostsByDefault", allowPostsByDefault), ("properties", properties)])

/-- `sendMessageById(roomId, \x7btext, properties = \x7b\x7d = \x7b\x7d\x7d)`
— note: the options parameter has NO top-level default, so a nullish options
argument throws before any validation. -/
def sendMessageById (roomId payload : JsValue) : Outcome :=
  match destr false payload with
  | .error m => .thrown m
  | .ok p =>
    let text := getProp p "text"
    let properties := withDefault (getProp p "properties") (.obj [])
    if !truthy roomId then .rejected "roomId is required"
    else if !truthy text then .rejected "text is required"
    else .sent InternalEvents.SEND_MESSAGE_TO_ROOM (.obj
      [("roomId", roomId), ("text", text), ("properties", properties)])

/-- `findById(roomId)` — sends on `Events.GET_ROOM_INFO` (the public
identifier), not an `InternalEvents` one. -/
def findById (roomId : JsValue) : Outcome :=
  if !truthy roomId then .rejected "roomId is required"
  else .sent Events.GET_ROOM_INFO (.obj [("roomId", roomId)])

/-- `findAll(options = \x7b\x7d)`. -/
def findAll (options : JsValue) : Outcome :=
  .sent InternalEvents.GET_CLIENT_ROOMS (.obj
    [("pagination", withDefault options (.obj []))])

/-- `getMessagesById(roomId, options = \x7b\x7d)`. -/
def getMessagesById (roomId options : JsValue) : Outcome :=
  if !truthy roomId then .rejected "roomId is required"
  else .sent InternalEvents.GET_MESSAGES (.obj
    [("roomId", roomId), ("pagination", withDefault options (.obj []))])

/-- `updateById(roomId, \x7btitle, properties = \x7b\x7d\x7d = \x7b\x7d)`. -/
def updateById (roomId payload : JsValue) : Outcome :=
  match destr true payload with
  | .error m => .thrown m
  | .ok p =>
    let title := getProp p "title"
    let properties := withDefault (getProp p "properties") (.obj [])
    if !truthy roomId then .rejected "roomId is required"
    else if !truthy title then .rejected "title is required"
    else .sent InternalEvents.UPDATE_ROOM (.obj
      [("roomId", roomId), ("title", title), ("properties", properties)])

/-- `deleteById() \x7b\x7d` — an empty body: returns `undefined`, no send. -/
def deleteById : Outcome := .ret .undefined

/-- `addMemberById(roomId, \x7btargetUniqueClientKey, isAllowedToPost,
properties = \x7b\x7d\x7d = \x7b\x7d)`. -/
def addMemberById (roomId payload : JsValue) : Outcome :=
  match destr true payload with
  | .error m => .thrown m
  | .ok p =>
    let targetUniqueClientKey := getProp p "targetUniqueClientKey"
    let isAllowedToPost := getProp p "isAllowedToPost"
    let properties := withDefault (getProp p "properties") (.obj [])
    if !truthy roomId then .rejected "roomId is required"
    else if !truthy targetUniqueClientKey then .rejected "targetUniqueClientKey is required"
    else .sent InternalEvents.ADD_PARTICIPANT (.obj
      [("roomId", roomId), ("targetUniqueClientKey", targetUniqueClientKey),
       ("isAllowedToPost", isAllowedToPost), ("properties", properties)])

/-- `updateMemberById(roomId, \x7btargetUniqueClientKey, isAllowedToPost,
properties\x7d = \x7b\x7d)` — `properties` has no destructuring default and
is passed through as-is. -/
def updateMemberById (roomId payload : JsValue) : Outcome :=
  match destr true payload with
  | .error m => .thrown m
  | .ok p =>
    let targetUniqueClientKey := getProp p "targetUniqueClientKey"
    let isAllowedToPost := getProp p "isAllowedToPost"
    let properties := getProp p "properties"
    if !truthy roomId then .rejected "roomId is required"
    else if !truthy targetUniqueClientKey then .rejected "targetUniqueClientKey is required"
    else .sent InternalEvents.UPDATE_PARTICIPANT (.obj
      [("roomId", roomId), ("targetUniqueClientKey", targetUniqueClientKey),
       ("isAllowedToPost", isAllowedToPost), ("properties", properties)])

/-- `removeMemberById() \x7b\x7d` — an empty body: returns `undefined`. -/
def removeMemberById : Outcome := .ret .undefined

end RoomsController

namespace ClientController

def Events.ADD_CLIENT : String := "add_client"

def Events.UPDATE_CLIENT : String := "update_client"

def Events.DELETE_CLIENT : String := "delete_client"

def Events.GET_CLIENT : String := "get_client"

def Events.GET_CURRENT_CLIENT : String := "get_current_client"

/-- The five internal (wire-facing) Client event identifiers. -/
def eventNames : List String :=
  [Events.ADD_CLIENT, Events.UPDATE_CLIENT, Events.DELETE_CLIENT,
   Events.GET_CLIENT, Events.GET_CURRENT_CLIENT]

/-- `create(\x7buniqueClientKey, token, properties\x7d = \x7b\x7d)`. -/
def create (payload : JsValue) : Outcome :=
  match destr true payload with
  | .error m => .thrown m
  | .ok p =>
    let uniqueClientKey := getProp p "uniqueClientKey"
    let token := getProp p "token"
    let properties := getProp p "properties"
    if !truthy uniqueClientKey then .rejected "uniqueClientKey is required"
    else if !truthy token then .rejected "token is required"
    else if !truthy properties then .rejected "properties is required"
    else .sent Events.ADD_CLIENT (.obj
      [("uniqueClientKey", uniqueClientKey), ("token", token), ("properties", properties)])

/-- `upsert(uniqueClientKey, \x7btoken, properties\x7d = \x7b\x7d)` — same
fields as `create` plus a constant `upsert: true`. -/
def upsert (uniqueClientKey payload : JsValue) : Outcome :=
  match destr true payload with
  | .error m => .thrown m
  | .ok p =>
    let token := getProp p "token"
    let properties := getProp p "properties"
    if !truthy uniqueClientKey then .rejected "uniqueClientKey is required"
    else if !truthy token then .rejected "token is required"
    else if !truthy properties then .rejected "properties is required"
    else .sent Events.ADD_CLIENT (.obj
      [("uniqueClientKey", uniqueClientKey), ("token", token),
       ("properties", properties), ("upsert", .bool true)])

/-- `update(uniqueClientKey, \x7btoken, properties\x7d = \x7b\x7d)` — only the
key is required; token and properties are added to the payload when truthy. -/
def update (uniqueClientKey payload : JsValue) : Outcome :=
  match destr true payload with
  | .error m => .thrown m
  | .ok p =>
    let token := getProp p "token"
    let properties := getProp p "properties"
    if !truthy uniqueClientKey then .rejected "uniqueClientKey is required"
    else
      let updateData := [("uniqueClientKey", uniqueClientKey)]
      let updateData := if truthy token then updateData ++ [("token", token)] else updateData
      let updateData := if truthy properties then updateData ++ [("properties", properties)] else updateData
      .sent Events.UPDATE_CLIENT (.obj updateData)

/-- `delete(uniqueClientKey)`. -/
def delete (uniqueClientKey : JsValue) : Outcome :=
  if !truthy uniqueClientKey then .rejected "uniqueClientKey is required"
  else .sent Events.DELETE_CLIENT (.obj [("uniqueClientKey", uniqueClientKey)])

/-- `findByKey(uniqueClientKey)`. -/
def findByKey (uniqueClientKey : JsValue) : Outcome :=
  if !truthy uniqueClientKey then .rejected "uniqueClientKey is required"
  else .sent Events.GET_CLIENT (.obj [("uniqueClientKey", uniqueClientKey)])

/-- `async getCurrent()` — forwards to `send` with the payload argument
omitted (`undefined`); the async wrapper adopts the transport future, leaving
its eventual result untransformed. -/
def getCurrent : Outcome := .sent Events.GET_CURRENT_CLIENT .undefined

end ClientController

namespace RoomsController

/-- Subscriptions installed once by `bindEvents` in the constructor:
(internal transport event name, public event name re-emitted). -/
def subscriptions : List (String × String) :=
  [(InternalEvents.ROOM_EVENT, Events.ROOM_EVENT),
   (InternalEvents.NEW_ROOM_CREATED, Events.NEW_ROOM_CREATED),
   (InternalEvents.JOINED_TO_ROOM, Events.JOINED_TO_ROOM),
   (InternalEvents.ROOM_UPDATED, Events.ROOM_UPDATED)]

/-- Deliver one transport event with envelope `message` to the controller:
each handler subscribed to that event name emits the public name with the
unwrapped inner payload `message.payload`. -/
def deliver (eventName : String) (message : JsValue) : List (String × JsValue) :=
  subscriptions.filterMap fun s =>
    if s.fst == eventName then some (s.snd, getProp message "payload") else none

/-- Dispatch emissions to listeners: `tbl name` is the list of listener ids
registered for a public event; each receives the emitted payload.  With no
registered listener this is a no-op, never an error. -/
def notify (emissions : List (String × JsValue)) (tbl : String → List Nat) :
    List (Nat × JsValue) :=
  emissions.flatMap fun e => (tbl e.fst).map fun i => (i, e.snd)

end RoomsController

namespace SocketKit

def Event.CONNECTED : String := "connected"

def Event.DISCONNECTED : String := "disconnected"

def Event.ERROR : String := "error"

def Event.CONNECTING_ERROR : String := "connecting_error"

/-- Observable state of one SocketKit instance: the `isConnected` flag, whether
a line client has been constructed, the public emissions, console warnings, the
log of transport `send` calls, and the transport connect / disconnect calls. -/
structure State where
  isConnected : Bool
  hasClient : Bool
  emissions : List String
  warnings : List String
  sendLog : List (String × JsValue)
  transportConnectCalls : Nat
  transportDisconnectCalls : Nat

/-- State right after the constructor runs: `isConnected` starts false. -/
def init : State :=
  { isConnected := false, hasClient := false, emissions := [], warnings := [],
    sendLog := [], transportConnectCalls := 0, transportDisconnectCalls := 0 }

/-- One event of the instance's life: a transport lifecycle event firing the
handler bound by `bindEvents`, a `connect()` or `disconnect()` call, or a
façade method call with the given outcome. -/
inductive Action where
  | lineConnected : Action
  | lineDisconnected : Action
  | lineError : Action
  | lineConnectingError : Action
  | connect : Action
  | disconnect : Action
  | facadeCall (o : Outcome) : Action

/-- Transition function, one clause per handler / method in the source.
Only the two lifecycle handlers bound in `bindEvents` write `isConnected`. -/
def step (s : State) : Action → State
  | .lineConnected =>
    { s with isConnected := true, emissions := s.emissions ++ [Event.CONNECTED] }
  | .lineDisconnected =>
    { s with isConnected := false, emissions := s.emissions ++ [Event.DISCONNECTED] }
  | .lineError =>
    { s with emissions := s.emissions ++ [Event.ERROR] }
  | .lineConnectingError =>
    { s with emissions := s.emissions ++ [Event.CONNECTING_ERROR] }
  | .connect =>
    if s.isConnected then
      { s with warnings := s.warnings ++ ["Client is already connected"] }
    else
      { s with hasClient := true,
               transportConnectCalls := s.transportConnectCalls + 1 }
  | .disconnect =>
    if s.isConnected then
      { s with transportDisconnectCalls := s.transportDisconnectCalls + 1 }
    else s
  | .facadeCall o =>
    { s with sendLog := s.sendLog ++ sendsOf o }

/-- Run a sequence of actions from a state. -/
def run (s : State) (acts : List Action) : State :=
  acts.foldl step s

/-- The connectivity dictated by the last lifecycle event received: true iff
the most recent of `lineConnected` / `lineDisconnected` was `lineConnected`
(false when neither has occurred). -/
def lastLifecycle (acts : List Action) : Bool :=
  acts.foldl
    (fun b a =>
      match a with
      | Action.lineConnected => true
      | Action.lineDisconnected => false
      | _ => b)
    false

end SocketKit

/-! ## Theorems -/

/-- Every object literal is truthy, even the empty one. -/
@[simp]
theorem truthy_obj (L : List (String × JsValue)) : truthy (.obj L) = true := rfl

/-- An absent (`undefined`) value is falsy. -/
@[simp]
theorem truthy_undefined : truthy .undefined = false := rfl

/-- A field not carried by an object literal looks up to `undefined`. -/
theorem lookupField_absent (L : List (String × JsValue)) (key : String)
    (h : hasField L key = false) : lookupField L key = .undefined := by
  induction L with
  | nil => rfl
  | cons kv rest ih =>
    simp only [hasField, Bool.or_eq_false_iff] at h
    simp only [lookupField, h.1, if_neg]
    exact ih h.2

/-- Claim C3: `Rooms.create` called with only a title sends on `create_room` a
payload exactly `title, private:=false, allowPostsByDefault:=true,
properties:=empty`, i.e. `isPrivate` defaults to false under the key
`private`, `allowPostsByDefault` defaults to true, `properties` to the empty
map. -/
theorem spec_C3 (t : JsValue) (ht : truthy t = true) :
    RoomsController.create (.obj [("title", t)]) =
      .sent "create_room" (.obj [("title", t), ("private", .bool false),
        ("allowPostsByDefault", .bool true), ("properties", .obj [])]) := by
  simp [RoomsController.create, destr, withDefault, getProp, lookupField,
    RoomsController.InternalEvents.CREATE_ROOM, ht]

/-- Witness for C3 at the claim's own input, title `T`. -/
theorem spec_C3_witness :
    truthy (JsValue.str "T") = true ∧
    RoomsController.create (.obj [("title", .str "T")]) =
      .sent "create_room" (.obj [("title", .str "T"), ("private", .bool false),
        ("allowPostsByDefault", .bool true), ("properties", .obj [])]) :=
  ⟨by decide, spec_C3 (.str "T") (by decide)⟩

/-- Claim C4: `Clients.upsert` sends one request whose payload is the three
declared fields plus the constant `upsert:=true`, while `Clients.create` on
the same inputs sends the same payload without the `upsert` key, both on the
`add_client` event. -/
theorem spec_C4 (k t : JsValue) (hk : truthy k = true) (ht : truthy t = true) :
    ClientController.upsert k (.obj [("token", t), ("properties", .obj [])]) =
      .sent "add_client" (.obj [("uniqueClientKey", k), ("token", t),
        ("properties", .obj []), ("upsert", .bool true)])
    ∧ ClientController.create (.obj [("uniqueClientKey", k), ("token", t),
        ("properties", .obj [])]) =
      .sent "add_client" (.obj [("uniqueClientKey", k), ("token", t),
        ("properties", .obj [])]) := by
  constructor
  · simp [ClientController.upsert, destr, withDefault, getProp, lookupField,
      ClientController.Events.ADD_CLIENT, hk, ht, truthy_obj]
  · simp [ClientController.create, destr, withDefault, getProp, lookupField,
      ClientController.Events.ADD_CLIENT, hk, ht, truthy_obj]

/-- Witness for C4 at the claim's own inputs `k`, `t`, empty properties. -/
theorem spec_C4_witness :
    truthy (JsValue.str "k") = true ∧ truthy (JsValue.str "t") = true ∧
    (ClientController.upsert (.str "k") (.obj [("token", .str "t"), ("properties", .obj [])]) =
      .sent "add_client" (.obj [("uniqueClientKey", .str "k"), ("token", .str "t"),
        ("properties", .obj []), ("upsert", .bool true)])
    ∧ ClientController.create (.obj [("uniqueClientKey", .str "k"), ("token", .str "t"),
        ("properties", .obj [])]) =
      .sent "add_client" (.obj [("uniqueClientKey", .str "k"), ("token", .str "t"),
        ("properties", .obj [])])) :=
  ⟨by decide, by decide, spec_C4 (.str "k") (.str "t") (by decide) (by decide)⟩

/-- Claim C6: contrary to the spec, the two placeholder operations
`Rooms.deleteById` and `Rooms.removeMemberById` do NOT raise a NotImplemented
error: their bodies are empty, so every invocation silently returns
`undefined`, performing no send, no rejection and no throw.  This theorem
evaluates the code at the failing input (any invocation). -/
theorem spec_C6 :
    RoomsController.deleteById = .ret .undefined
    ∧ RoomsController.removeMemberById = .ret .undefined
    ∧ sendsOf RoomsController.deleteById = []
    ∧ sendsOf RoomsController.removeMemberById = []
    ∧ isRejected RoomsController.deleteById = false
    ∧ isThrown RoomsController.deleteById = false
    ∧ isRejected RoomsController.removeMemberById = false
    ∧ isThrown RoomsController.removeMemberById = false :=
  ⟨rfl, rfl, rfl, rfl, rfl, rfl, rfl, rfl⟩

/-- Claim C10: required-field presence is JavaScript falsiness, so `roomId = 0`
is rejected as missing by every Rooms operation taking a roomId, an
empty-string `uniqueClientKey` is rejected, while the empty (truthy) object
passes `Clients.create`'s required-properties check. -/
theorem spec_C10 :
    RoomsController.findById (.num 0) = .rejected "roomId is required"
    ∧ RoomsController.sendMessageById (.num 0) (.obj [("text", .str "hi")]) =
        .rejected "roomId is required"
    ∧ RoomsController.getMessagesById (.num 0) .undefined = .rejected "roomId is required"
    ∧ RoomsController.updateById (.num 0) (.obj [("title", .str "T")]) =
        .rejected "roomId is required"
    ∧ RoomsController.addMemberById (.num 0) (.obj [("targetUniqueClientKey", .num 7)]) =
        .rejected "roomId is required"
    ∧ RoomsController.updateMemberById (.num 0) (.obj [("targetUniqueClientKey", .num 7)]) =
        .rejected "roomId is required"
    ∧ ClientController.findByKey (.str "") = .rejected "uniqueClientKey is required"
    ∧ ClientController.delete (.str "") = .rejected "uniqueClientKey is required"
    ∧ ClientController.create (.obj [("uniqueClientKey", .str "u"), ("token", .str "t"),
        ("properties", .obj [])]) =
        .sent "add_client" (.obj [("uniqueClientKey", .str "u"), ("token", .str "t"),
          ("properties", .obj [])]) :=
  ⟨rfl, rfl, rfl, rfl, rfl, rfl, rfl, rfl, rfl⟩

/-- Claim C5: for each of the four internal events subscribed at construction,
delivering one transport event with an envelope carrying `payload := p` causes
exactly one public emission under the identity-mapped public name, whose
listeners receive the unwrapped `p`; with no registered listener the emission
notifies nobody and is never an error. -/
theorem spec_C5 (p : JsValue) (tbl : String → List Nat) :
    RoomsController.subscriptions.map Prod.fst =
      ["room_event", "new_room_created", "joined_to_room", "room_updated"]
    ∧ RoomsController.deliver "room_event" (.obj [("payload", p)]) = [("room_event", p)]
    ∧ RoomsController.deliver "new_room_created" (.obj [("payload", p)]) =
        [("new_room_created", p)]
    ∧ RoomsController.deliver "joined_to_room" (.obj [("payload", p)]) =
        [("joined_to_room", p)]
    ∧ RoomsController.deliver "room_updated" (.obj [("payload", p)]) = [("room_updated", p)]
    ∧ RoomsController.notify
        (RoomsController.deliver "new_room_created" (.obj [("payload", p)])) tbl =
        (tbl "new_room_created").map (fun i => (i, p))
    ∧ RoomsController.notify
        (RoomsController.deliver "new_room_created" (.obj [("payload", p)])) (fun _ => []) =
        [] := by
  have hd : RoomsController.deliver "new_room_created" (.obj [("payload", p)]) =
      [("new_room_created", p)] := rfl
  refine ⟨rfl, rfl, rfl, rfl, rfl, ?_, ?_⟩
  · rw [hd]; simp [RoomsController.notify]
  · rw [hd]; simp [RoomsController.notify]

/-- Auxiliary to C7: running any action sequence folds `isConnected` by the
lifecycle-only update, from any starting state. -/
theorem run_isConnected_foldl (acts : List SocketKit.Action) (s : SocketKit.State) :
    (SocketKit.run s acts).isConnected =
      acts.foldl
        (fun b a =>
          match a with
          | SocketKit.Action.lineConnected => true
          | SocketKit.Action.lineDisconnected => false
          | _ => b)
        s.isConnected := by
  induction acts generalizing s with
  | nil => rfl
  | cons a rest ih =>
    have h1 : SocketKit.run s (a :: rest) = SocketKit.run (SocketKit.step s a) rest := rfl
    rw [h1, ih, List.foldl_cons]
    congr 1
    cases a
    case connect => by_cases hc : s.isConnected = true <;> simp [SocketKit.step, hc]
    case disconnect => by_cases hc : s.isConnected = true <;> simp [SocketKit.step, hc]
    all_goals rfl

/-- Claim C7: `isConnected` is written only by the two lifecycle handlers bound
in `bindEvents` (true on the transport CONNECTED event, false on
DISCONNECTED); no façade call and neither `connect()` nor `disconnect()`
writes it, so in every reachable state it equals the connectivity dictated by
the last lifecycle event received. -/
theorem spec_C7 :
    (∀ acts : List SocketKit.Action,
      (SocketKit.run SocketKit.init acts).isConnected = SocketKit.lastLifecycle acts)
    ∧ (∀ (s : SocketKit.State) (o : Outcome),
        (SocketKit.step s (.facadeCall o)).isConnected = s.isConnected)
    ∧ (∀ s : SocketKit.State, (SocketKit.step s .connect).isConnected = s.isConnected)
    ∧ (∀ s : SocketKit.State, (SocketKit.step s .disconnect).isConnected = s.isConnected)
    ∧ (∀ s : SocketKit.State, (SocketKit.step s .lineConnected).isConnected = true)
    ∧ (∀ s : SocketKit.State, (SocketKit.step s .lineDisconnected).isConnected = false) := by
  refine ⟨fun acts => ?_, fun s o => rfl, fun s => ?_, fun s => ?_, fun s => rfl, fun s => rfl⟩
  · rw [run_isConnected_foldl]; rfl
  · by_cases h : s.isConnected = true <;> simp [SocketKit.step, h]
  · by_cases h : s.isConnected = true <;> simp [SocketKit.step, h]

/-- Claim C8: when validation succeeds the caller receives exactly the future
produced by `Transport.send` for the logged event and payload, unmodified;
the call makes exactly that one send and mutates no SocketKit state beyond
appending it to the send log (in particular `isConnected` is untouched); this
includes `Clients.getCurrent`, whose async wrapper adopts the transport future
without transforming its eventual result. -/
theorem spec_C8 {F : Type} (send : String → JsValue → F) (s : SocketKit.State)
    (o : Outcome) (e : String) (p : JsValue) (h : o = .sent e p) :
    runCall send o = .future (send e p)
    ∧ sendsOf o = [(e, p)]
    ∧ SocketKit.step s (.facadeCall o) = { s with sendLog := s.sendLog ++ [(e, p)] }
    ∧ (SocketKit.step s (.facadeCall o)).isConnected = s.isConnected
    ∧ ClientController.getCurrent = .sent "get_current_client" .undefined := by
  subst h
  exact ⟨rfl, rfl, rfl, rfl, rfl⟩

/-- Witness for C8 at a concrete transport and the `getCurrent` call. -/
theorem spec_C8_witness :
    runCall (fun _ _ => (0 : Nat)) (Outcome.sent "get_current_client" JsValue.undefined) =
      .future 0
    ∧ sendsOf (Outcome.sent "get_current_client" JsValue.undefined) =
        [("get_current_client", JsValue.undefined)]
    ∧ SocketKit.step SocketKit.init
        (.facadeCall (Outcome.sent "get_current_client" JsValue.undefined)) =
        { SocketKit.init with
            sendLog := SocketKit.init.sendLog ++ [("get_current_client", JsValue.undefined)] }
    ∧ (SocketKit.step SocketKit.init
        (.facadeCall (Outcome.sent "get_current_client" JsValue.undefined))).isConnected =
        SocketKit.init.isConnected
    ∧ ClientController.getCurrent = .sent "get_current_client" .undefined :=
  spec_C8 (fun _ _ => (0 : Nat)) SocketKit.init
    (Outcome.sent "get_current_client" JsValue.undefined) "get_current_client"
    JsValue.undefined rfl

/-- Counterexample to C1 as stated, at the claim's own example input: calling
`sendMessageById` with both `roomId` and `text` missing (no arguments at all,
so the options object is `undefined`).  Its options parameter is destructured
without a top-level default, so the call throws a synchronous TypeError before
any validation runs — it does not return a rejected promise naming `roomId`.
Zero sends still occur. -/
theorem spec_C1_counterexample :
    RoomsController.sendMessageById JsValue.undefined JsValue.undefined =
      .thrown destructureMsg
    ∧ isRejected (RoomsController.sendMessageById JsValue.undefined JsValue.undefined) = false
    ∧ isThrown (RoomsController.sendMessageById JsValue.undefined JsValue.undefined) = true
    ∧ sendsOf (RoomsController.sendMessageById JsValue.undefined JsValue.undefined) = [] :=
  ⟨rfl, rfl, rfl, rfl⟩

/-- Claim C1 (amended): for every façade method with required fields, a call
with a required field absent returns a rejected promise naming exactly the
first missing field in declaration order and makes zero Transport.send calls
— except that `sendMessageById`, whose options parameter has no top-level
default, throws a synchronous TypeError (still with zero sends) when the
options object itself is omitted; with an options object supplied it too
rejects on the first missing field in order. -/
theorem spec_C1
    (f : JsValue) (hf : truthy f = false)
    (r : JsValue) (hr : truthy r = true)
    (k : JsValue) (hk : truthy k = true)
    (tv : JsValue) (htv : truthy tv = true)
    (L1 : List (String × JsValue)) (h1 : hasField L1 "title" = false)
    (L2 : List (String × JsValue)) (h2 : hasField L2 "text" = false)
    (L3 : List (String × JsValue)) (h3 : hasField L3 "targetUniqueClientKey" = false)
    (L4 : List (String × JsValue)) (h4 : hasField L4 "uniqueClientKey" = false)
    (L5 : List (String × JsValue)) (h5 : hasField L5 "token" = false)
    (L6 : List (String × JsValue)) (h6 : hasField L6 "properties" = false) :
    RoomsController.create (.obj L1) = .rejected "title is required"
    ∧ RoomsController.sendMessageById f (.obj L2) = .rejected "roomId is required"
    ∧ RoomsController.sendMessageById r (.obj L2) = .rejected "text is required"
    ∧ RoomsController.sendMessageById r .undefined = .thrown destructureMsg
    ∧ RoomsController.findById f = .rejected "roomId is required"
    ∧ RoomsController.getMessagesById f .undefined = .rejected "roomId is required"
    ∧ RoomsController.updateById f .undefined = .rejected "roomId is required"
    ∧ RoomsController.updateById r (.obj L1) = .rejected "title is required"
    ∧ RoomsController.addMemberById f .undefined = .rejected "roomId is required"
    ∧ RoomsController.addMemberById r (.obj L3) =
        .rejected "targetUniqueClientKey is required"
    ∧ RoomsController.updateMemberById f .undefined = .rejected "roomId is required"
    ∧ RoomsController.updateMemberById r (.obj L3) =
        .rejected "targetUniqueClientKey is required"
    ∧ ClientController.create (.obj L4) = .rejected "uniqueClientKey is required"
    ∧ ClientController.create (.obj (("uniqueClientKey", k) :: L5)) =
        .rejected "token is required"
    ∧ ClientController.create (.obj (("uniqueClientKey", k) :: ("token", tv) :: L6)) =
        .rejected "properties is required"
    ∧ ClientController.upsert f (.obj []) = .rejected "uniqueClientKey is required"
    ∧ ClientController.upsert k (.obj L5) = .rejected "token is required"
    ∧ ClientController.upsert k (.obj (("token", tv) :: L6)) =
        .rejected "properties is required"
    ∧ ClientController.update f .undefined = .rejected "uniqueClientKey is required"
    ∧ ClientController.delete f = .rejected "uniqueClientKey is required"
    ∧ ClientController.findByKey f = .rejected "uniqueClientKey is required"
    ∧ (∀ m : String, sendsOf (Outcome.rejected m) = [] ∧ sendsOf (Outcome.thrown m) = []) := by
  refine ⟨?_, ?_, ?_, rfl, ?_, ?_, ?_, ?_, ?_, ?_, ?_, ?_, ?_, ?_, ?_, ?_, ?_, ?_, ?_, ?_,
    ?_, fun m => ⟨rfl, rfl⟩⟩
  · simp [RoomsController.create, destr, withDefault, getProp,
      lookupField_absent L1 "title" h1]
  · simp [RoomsController.sendMessageById, destr, withDefault, getProp, hf]
  · simp [RoomsController.sendMessageById, destr, withDefault, getProp, hr,
      lookupField_absent L2 "text" h2]
  · simp [RoomsController.findById, hf]
  · simp [RoomsController.getMessagesById, hf]
  · simp [RoomsController.updateById, destr, withDefault, getProp, hf]
  · simp [RoomsController.updateById, destr, withDefault, getProp, hr,
      lookupField_absent L1 "title" h1]
  · simp [RoomsController.addMemberById, destr, withDefault, getProp, hf]
  · simp [RoomsController.addMemberById, destr, withDefault, getProp, hr,
      lookupField_absent L3 "targetUniqueClientKey" h3]
  · simp [RoomsController.updateMemberById, destr, withDefault, getProp, hf]
  · simp [RoomsController.updateMemberById, destr, withDefault, getProp, hr,
      lookupField_absent L3 "targetUniqueClientKey" h3]
  · simp [ClientController.create, destr, withDefault, getProp,
      lookupField_absent L4 "uniqueClientKey" h4]
  · simp [ClientController.create, destr, withDefault, getProp, lookupField, hk,
      lookupField_absent L5 "token" h5]
  · simp [ClientController.create, destr, withDefault, getProp, lookupField, hk, htv,
      lookupField_absent L6 "properties" h6]
  · simp [ClientController.upsert, destr, withDefault, getProp, lookupField, hf]
  · simp [ClientController.upsert, destr, withDefault, getProp, hk,
      lookupField_absent L5 "token" h5]
  · simp [ClientController.upsert, destr, withDefault, getProp, lookupField, hk, htv,
      lookupField_absent L6 "properties" h6]
  · simp [ClientController.update, destr, withDefault, getProp, hf]
  · simp [ClientController.delete, hf]
  · simp [ClientController.findByKey, hf]

/-- Witness for C1 at concrete inputs: falsy `0`, truthy `1`, keys `k`/`t`,
and option objects that omit the required fields entirely. -/
theorem spec_C1_witness :
    truthy (JsValue.num 0) = false ∧ truthy (JsValue.num 1) = true
    ∧ truthy (JsValue.str "k") = true ∧ truthy (JsValue.str "t") = true
    ∧ RoomsController.create (.obj []) = .rejected "title is required" :=
  ⟨by decide, by decide, by decide, by decide,
    (spec_C1 (.num 0) (by decide) (.num 1) (by decide) (.str "k") (by decide)
      (.str "t") (by decide) [] rfl [] rfl [] rfl [] rfl [] rfl [] rfl).1⟩

/-- Counterexample to C2 as stated: `Rooms.findById` with its required field
present makes its one send on eventName `get_room_info`, which is not among
the internal wire event identifiers the claim enumerates (it is the public
`Events.GET_ROOM_INFO` identifier). -/
theorem spec_C2_counterexample :
    RoomsController.findById (.num 1) =
      .sent "get_room_info" (.obj [("roomId", .num 1)])
    ∧ RoomsController.internalEventNames.contains "get_room_info" = false :=
  ⟨rfl, by decide⟩

/-- Claim C2 (amended): for every façade method called with all required
fields present, exactly one Transport.send is made; its eventName is the
documented internal wire identifier for every Room operation except
`findById`, which sends on the public identifier `get_room_info` (not a
member of the internal enumeration); every Client operation sends on its
documented internal identifier. -/
theorem spec_C2
    (r t txt c k tv o : JsValue)
    (hr : truthy r = true) (ht : truthy t = true) (htxt : truthy txt = true)
    (hc : truthy c = true) (hk : truthy k = true) (htv : truthy tv = true) :
    (RoomsController.create (.obj [("title", t)]) =
      .sent "create_room" (.obj [("title", t), ("private", .bool false),
        ("allowPostsByDefault", .bool true), ("properties", .obj [])])
      ∧ RoomsController.internalEventNames.contains "create_room" = true)
    ∧ (RoomsController.sendMessageById r (.obj [("text", txt)]) =
      .sent "send_message_to_room" (.obj [("roomId", r), ("text", txt),
        ("properties", .obj [])])
      ∧ RoomsController.internalEventNames.contains "send_message_to_room" = true)
    ∧ (RoomsController.findAll o =
      .sent "get_client_rooms" (.obj [("pagination", withDefault o (.obj []))])
      ∧ RoomsController.internalEventNames.contains "get_client_rooms" = true)
    ∧ (RoomsController.getMessagesById r o =
      .sent "get_messages" (.obj [("roomId", r), ("pagination", withDefault o (.obj []))])
      ∧ RoomsController.internalEventNames.contains "get_messages" = true)
    ∧ (RoomsController.updateById r (.obj [("title", t)]) =
      .sent "update_room" (.obj [("roomId", r), ("title", t), ("properties", .obj [])])
      ∧ RoomsController.internalEventNames.contains "update_room" = true)
    ∧ (RoomsController.addMemberById r (.obj [("targetUniqueClientKey", c)]) =
      .sent "add_participant" (.obj [("roomId", r), ("targetUniqueClientKey", c),
        ("isAllowedToPost", .undefined), ("properties", .obj [])])
      ∧ RoomsController.internalEventNames.contains "add_participant" = true)
    ∧ (RoomsController.updateMemberById r (.obj [("targetUniqueClientKey", c)]) =
      .sent "update_participant" (.obj [("roomId", r), ("targetUniqueClientKey", c),
        ("isAllowedToPost", .undefined), ("properties", .undefined)])
      ∧ RoomsController.internalEventNames.contains "update_participant" = true)
    ∧ (RoomsController.findById r = .sent "get_room_info" (.obj [("roomId", r)])
      ∧ RoomsController.internalEventNames.contains "get_room_info" = false)
    ∧ (ClientController.create (.obj [("uniqueClientKey", k), ("token", tv),
        ("properties", .obj [])]) =
      .sent "add_client" (.obj [("uniqueClientKey", k), ("token", tv),
        ("properties", .obj [])])
      ∧ ClientController.eventNames.contains "add_client" = true)
    ∧ ClientController.upsert k (.obj [("token", tv), ("properties", .obj [])]) =
      .sent "add_client" (.obj [("uniqueClientKey", k), ("token", tv),
        ("properties", .obj []), ("upsert", .bool true)])
    ∧ (ClientController.update k (.obj []) =
      .sent "update_client" (.obj [("uniqueClientKey", k)])
      ∧ ClientController.eventNames.contains "update_client" = true)
    ∧ (ClientController.delete k = .sent "delete_client" (.obj [("uniqueClientKey", k)])
      ∧ ClientController.eventNames.contains "delete_client" = true)
    ∧ (ClientController.findByKey k = .sent "get_client" (.obj [("uniqueClientKey", k)])
      ∧ ClientController.eventNames.contains "get_client" = true)
    ∧ (ClientController.getCurrent = .sent "get_current_client" .undefined
      ∧ ClientController.eventNames.contains "get_current_client" = true)
    ∧ (∀ e p, sendsOf (Outcome.sent e p) = [(e, p)]) := by
  refine ⟨⟨?_, by decide⟩, ⟨?_, by decide⟩, ⟨rfl, by decide⟩, ⟨?_, by decide⟩,
    ⟨?_, by decide⟩, ⟨?_, by decide⟩, ⟨?_, by decide⟩, ⟨?_, by decide⟩,
    ⟨?_, by decide⟩, ?_, ⟨?_, by decide⟩, ⟨?_, by decide⟩, ⟨?_, by decide⟩,
    ⟨rfl, by decide⟩, fun e p => rfl⟩
  · simp [RoomsController.create, destr, withDefault, getProp, lookupField,
      RoomsController.InternalEvents.CREATE_ROOM, ht]
  · simp [RoomsController.sendMessageById, destr, withDefault, getProp, lookupField,
      RoomsController.InternalEvents.SEND_MESSAGE_TO_ROOM, hr, htxt]
  · simp [RoomsController.getMessagesById,
      RoomsController.InternalEvents.GET_MESSAGES, hr]
  · simp [RoomsController.updateById, destr, withDefault, getProp, lookupField,
      RoomsController.InternalEvents.UPDATE_ROOM, hr, ht]
  · simp [RoomsController.addMemberById, destr, withDefault, getProp, lookupField,
      RoomsController.InternalEvents.ADD_PARTICIPANT, hr, hc]
  · simp [RoomsController.updateMemberById, destr, withDefault, getProp, lookupField,
      RoomsController.InternalEvents.UPDATE_PARTICIPANT, hr, hc]
  · simp [RoomsController.findById, RoomsController.Events.GET_ROOM_INFO, hr]
  · simp [ClientController.create, destr, withDefault, getProp, lookupField,
      ClientController.Events.ADD_CLIENT, hk, htv]
  · simp [ClientController.upsert, destr, withDefault, getProp, lookupField,
      ClientController.Events.ADD_CLIENT, hk, htv]
  · simp [ClientController.update, destr, withDefault, getProp, lookupField,
      ClientController.Events.UPDATE_CLIENT, hk]
  · simp [ClientController.delete, ClientController.Events.DELETE_CLIENT, hk]
  · simp [ClientController.findByKey, ClientController.Events.GET_CLIENT, hk]

/-- Witness for C2 at concrete truthy inputs, projecting the `findById`
conjunct (the amended part). -/
theorem spec_C2_witness :
    truthy (JsValue.num 1) = true ∧ truthy (JsValue.str "T") = true
    ∧ truthy (JsValue.str "m") = true ∧ truthy (JsValue.num 7) = true
    ∧ truthy (JsValue.str "k") = true ∧ truthy (JsValue.str "t") = true
    ∧ (RoomsController.findById (.num 1) =
        .sent "get_room_info" (.obj [("roomId", .num 1)])
      ∧ RoomsController.internalEventNames.contains "get_room_info" = false) :=
  ⟨by decide, by decide, by decide, by decide, by decide, by decide,
    (spec_C2 (.num 1) (.str "T") (.str "m") (.num 7) (.str "k") (.str "t")
      JsValue.undefined (by decide) (by decide) (by decide) (by decide) (by decide)
      (by decide)).2.2.2.2.2.2.2.1⟩

/-- Claim C9: `Rooms.updateById` rejects when `title` is absent but defaults
`properties` to the empty map in the sent payload; `Rooms.updateMemberById`
passes `properties` through as-is, so an omitted `properties` is sent as
`undefined`; `Rooms.addMemberById` defaults `properties` to the empty map. -/
theorem spec_C9
    (r c t : JsValue) (hr : truthy r = true) (hc : truthy c = true) (ht : truthy t = true)
    (L : List (String × JsValue)) (hL : hasField L "title" = false) :
    RoomsController.updateById r (.obj L) = .rejected "title is required"
    ∧ RoomsController.updateById r (.obj [("title", t)]) =
        .sent "update_room" (.obj [("roomId", r), ("title", t), ("properties", .obj [])])
    ∧ RoomsController.updateMemberById r (.obj [("targetUniqueClientKey", c)]) =
        .sent "update_participant" (.obj [("roomId", r), ("targetUniqueClientKey", c),
          ("isAllowedToPost", .undefined), ("properties", .undefined)])
    ∧ RoomsController.addMemberById r (.obj [("targetUniqueClientKey", c)]) =
        .sent "add_participant" (.obj [("roomId", r), ("targetUniqueClientKey", c),
          ("isAllowedToPost", .undefined), ("properties", .obj [])]) := by
  refine ⟨?_, ?_, ?_, ?_⟩
  · simp [RoomsController.updateById, destr, withDefault, getProp, hr,
      lookupField_absent L "title" hL]
  · simp [RoomsController.updateById, destr, withDefault, getProp, lookupField,
      RoomsController.InternalEvents.UPDATE_ROOM, hr, ht]
  · simp [RoomsController.updateMemberById, destr, withDefault, getProp, lookupField,
      RoomsController.InternalEvents.UPDATE_PARTICIPANT, hr, hc]
  · simp [RoomsController.addMemberById, destr, withDefault, getProp, lookupField,
      RoomsController.InternalEvents.ADD_PARTICIPANT, hr, hc]

/-- Witness for C9 at concrete inputs: roomId 1, member key 7, title `T`, and
an options object omitting `title`. -/
theorem spec_C9_witness :
    truthy (JsValue.num 1) = true ∧ truthy (JsValue.num 7) = true
    ∧ truthy (JsValue.str "T") = true
    ∧ RoomsController.updateMemberById (.num 1) (.obj [("targetUniqueClientKey", .num 7)]) =
        .sent "update_participant" (.obj [("roomId", .num 1),
          ("targetUniqueClientKey", .num 7), ("isAllowedToPost", .undefined),
          ("properties", .undefined)]) :=
  ⟨by decide, by decide, by decide,
    (spec_C9 (.num 1) (.num 7) (.str "T") (by decide) (by decide) (by decide)
      [] rfl).2.2.1⟩
